import Mathlib

/-!
Shallow embedding of the survey service core (FLYBYME/qa):
  - a JSON value type and a fuel-based parser modelling JavaScript `JSON.parse`
    (needed because the store file and the model outputs are parsed with it);
  - the file-backed survey store (`src/store/surveyStore.ts`);
  - the two LLM-facing HTTP handlers (`src/actions/survay.ts`);
  - the client's deep-link resume logic (`src/cleint/index.ts`, `resumeSurvey`).
Machine state that the TypeScript keeps on disk (the single JSON document) is
passed explicitly: every store operation takes the current document and returns
either the new document (`Except.ok`) or the thrown error (`Except.error`); a
thrown error occurs before `saveStore`, so the file is left as it was.
-/

namespace QA

/-! ## JSON values and a model of JavaScript JSON.parse -/

/-- JSON values. Numbers keep their source lexeme: no claim inspects numeric
values, so float semantics are not modelled. Objects keep field order, as
JavaScript objects produced by `JSON.parse` do. -/
inductive Json where
  | null : Json
  | bool : Bool → Json
  | num : String → Json
  | str : String → Json
  | arr : List Json → Json
  | obj : List (String × Json) → Json
deriving Inhabited

/-- JSON whitespace characters accepted by `JSON.parse`. -/
def isJsonWs (c : Char) : Bool :=
  c = ' ' || c = '\t' || c = '\n' || c = '\r'

/-- Drop leading JSON whitespace. -/
def skipWs : List Char → List Char
  | [] => []
  | c :: cs => if isJsonWs c then skipWs cs else c :: cs

/-- Hexadecimal digit value, for `\uXXXX` escapes. -/
def hexVal (c : Char) : Option Nat :=
  if '0' ≤ c ∧ c ≤ '9' then some (c.toNat - '0'.toNat)
  else if 'a' ≤ c ∧ c ≤ 'f' then some (c.toNat - 'a'.toNat + 10)
  else if 'A' ≤ c ∧ c ≤ 'F' then some (c.toNat - 'A'.toNat + 10)
  else none

/-- Parse the body of a JSON string after the opening quote, handling the
escape sequences `JSON.parse` accepts and rejecting raw control characters.
Returns the decoded characters and the input after the closing quote. -/
def parseStrBody : Nat → List Char → Option (List Char × List Char)
  | 0, _ => none
  | _, [] => none
  | fuel + 1, c :: cs =>
    if c = '\"' then some ([], cs)
    else if c = '\\' then
      match cs with
      | [] => none
      | e :: cs' =>
        let cont (d : Char) (rest : List Char) : Option (List Char × List Char) :=
          match parseStrBody fuel rest with
          | some (out, r) => some (d :: out, r)
          | none => none
        if e = '\"' then cont '\"' cs'
        else if e = '\\' then cont '\\' cs'
        else if e = '/' then cont '/' cs'
        else if e = 'b' then cont '\x08' cs'
        else if e = 'f' then cont '\x0c' cs'
        else if e = 'n' then cont '\n' cs'
        else if e = 'r' then cont '\r' cs'
        else if e = 't' then cont '\t' cs'
        else if e = 'u' then
          match cs' with
          | h1 :: h2 :: h3 :: h4 :: cs'' =>
            match hexVal h1, hexVal h2, hexVal h3, hexVal h4 with
            | some a, some b, some c1, some d1 =>
              cont (Char.ofNat (((a * 16 + b) * 16 + c1) * 16 + d1)) cs''
            | _, _, _, _ => none
          | _ => none
        else none
    else if c.toNat < 32 then none
    else
      match parseStrBody fuel cs with
      | some (out, r) => some (c :: out, r)
      | none => none

/-- Digit run used by the number grammar. -/
def takeDigits (cs : List Char) : List Char × List Char :=
  cs.span Char.isDigit

/-- Parse a JSON number lexeme `-?(0|[1-9][0-9]*)` with optional fraction and
exponent. A dot or exponent letter not followed by digits is left in the
remaining input, where every surrounding context of `JSON.parse` rejects it. -/
def parseNum (cs : List Char) : Option (List Char × List Char) :=
  let (sign, cs1) :=
    match cs with
    | '-' :: rest => (['-'], rest)
    | _ => (([] : List Char), cs)
  match cs1 with
  | [] => none
  | d :: rest =>
    if ¬ d.isDigit then none
    else
      let (intPart, cs2) :=
        if d = '0' then ([d], rest)
        else
          let (ds, r) := takeDigits rest
          (d :: ds, r)
      let (fracPart, cs3) :=
        match cs2 with
        | '.' :: r =>
          let (ds, r') := takeDigits r
          if ds.isEmpty then (([] : List Char), cs2) else ('.' :: ds, r')
        | _ => (([] : List Char), cs2)
      let (expPart, cs4) :=
        match cs3 with
        | e :: r =>
          if e = 'e' ∨ e = 'E' then
            let (sgn, r1) :=
              match r with
              | s :: r' => if s = '+' ∨ s = '-' then ([s], r') else (([] : List Char), r)
              | [] => (([] : List Char), r)
            let (ds, r2) := takeDigits r1
            if ds.isEmpty then (([] : List Char), cs3) else (e :: (sgn ++ ds), r2)
          else (([] : List Char), cs3)
        | [] => (([] : List Char), cs3)
      some (sign ++ intPart ++ fracPart ++ expPart, cs4)

mutual

/-- Parse one JSON value (leading whitespace allowed), as `JSON.parse` does. -/
def parseVal : Nat → List Char → Option (Json × List Char)
  | 0, _ => none
  | fuel + 1, cs =>
    match skipWs cs with
    | 'n' :: 'u' :: 'l' :: 'l' :: rest => some (.null, rest)
    | 't' :: 'r' :: 'u' :: 'e' :: rest => some (.bool true, rest)
    | 'f' :: 'a' :: 'l' :: 's' :: 'e' :: rest => some (.bool false, rest)
    | '\"' :: rest =>
      (match parseStrBody (rest.length + 1) rest with
       | some (out, r) => some (.str (String.mk out), r)
       | none => none)
    | '[' :: rest =>
      (match skipWs rest with
       | ']' :: r => some (.arr [], r)
       | _ =>
         match parseElems fuel rest with
         | some (vs, r) => some (.arr vs, r)
         | none => none)
    | '\x7b' :: rest =>
      (match skipWs rest with
       | '\x7d' :: r => some (.obj [], r)
       | _ =>
         match parseMembers fuel rest with
         | some (ms, r) => some (.obj ms, r)
         | none => none)
    | c :: rest =>
      if c = '-' ∨ c.isDigit then
        match parseNum (c :: rest) with
        | some (lex, r) => some (.num (String.mk lex), r)
        | none => none
      else none
    | [] => none

/-- Parse the elements of a non-empty JSON array (after the `[`). -/
def parseElems : Nat → List Char → Option (List Json × List Char)
  | 0, _ => none
  | fuel + 1, cs =>
    match parseVal fuel cs with
    | none => none
    | some (v, rest) =>
      match skipWs rest with
      | ',' :: r =>
        (match parseElems fuel r with
         | some (vs, r') => some (v :: vs, r')
         | none => none)
      | ']' :: r => some ([v], r)
      | _ => none

/-- Parse the members of a non-empty JSON object (after the opening brace). -/
def parseMembers : Nat → List Char → Option (List (String × Json) × List Char)
  | 0, _ => none
  | fuel + 1, cs =>
    match skipWs cs with
    | '\"' :: rest =>
      (match parseStrBody (rest.length + 1) rest with
       | none => none
       | some (key, r1) =>
         match skipWs r1 with
         | ':' :: r2 =>
           (match parseVal fuel r2 with
            | none => none
            | some (v, r3) =>
              match skipWs r3 with
              | ',' :: r4 =>
                (match parseMembers fuel r4 with
                 | some (ms, r5) => some ((String.mk key, v) :: ms, r5)
                 | none => none)
              | '\x7d' :: r4 => some ([(String.mk key, v)], r4)
              | _ => none)
         | _ => none)
    | _ => none

end

/-- Model of `JSON.parse`: the whole string must be one JSON value, with
whitespace allowed around it; anything else throws (here: `none`). -/
def jsonParse (s : String) : Option Json :=
  match parseVal (s.length + 1) s.data with
  | some (j, rest) => if (skipWs rest).isEmpty then some j else none
  | none => none

/-- Field lookup on a JSON value: `some` when the value is an object with
field `k` (last occurrence wins, as `JSON.parse` keeps the last duplicate
key), `none` otherwise. This is only the lookup half of JavaScript property
access: a plain access `j.k` additionally throws on a `null` receiver — that
is `jaccess` below, which the handlers use. -/
def jget (j : Json) (k : String) : Option Json :=
  match j with
  | .obj fields => (fields.reverse.find? (fun p => p.1 == k)).map (·.2)
  | _ => none

/-- JavaScript property access `j.k` on a parsed value: a `null` receiver
throws `TypeError` (`JSON.parse` never yields `undefined`, so null is the only
throwing receiver); any other value either is an object or is boxed to one,
and the access yields the named field (`some`) or `undefined` (`none`). -/
def jaccess : Json → String → Except Unit (Option Json)
  | .null, _ => .error ()
  | j, k => .ok (jget j k)

/-- JavaScript `??`: the left value unless it is absent (`undefined`) or
`null`. -/
def nullishOr (v : Option Json) (d : Json) : Json :=
  match v with
  | none => d
  | some .null => d
  | some x => x

/-! ## The survey store data model (`src/store/surveyStore.ts`) -/

/-- `type: 'boolean' | 'scale'` of a stored question. -/
inductive QType where
  | boolean : QType
  | scale : QType
deriving DecidableEq, Repr

/-- `StoredQuestion`. The TS `string | null | undefined` optional labels are
collapsed to `Option String` (`null` and `undefined` are both absence). -/
structure StoredQuestion where
  id : String
  type : QType
  label : String
  minLabel : Option String := none
  maxLabel : Option String := none
deriving DecidableEq, Repr

/-- `StoredAnswer`: a question together with its answer text. -/
structure StoredAnswer where
  question : StoredQuestion
  answer : String
deriving DecidableEq, Repr

/-- `StoredSummary`: the complete triple the store persists. -/
structure StoredSummary where
  summary : String
  insights : List String
  recommendations : List String
deriving DecidableEq, Repr

/-- `role: 'user' | 'assistant'` of a chat turn. -/
inductive Role where
  | user : Role
  | assistant : Role
deriving DecidableEq, Repr

/-- `ChatTurn`. -/
structure ChatTurn where
  role : Role
  content : String
  ts : String
deriving DecidableEq, Repr

/-- `SurveyRecord`, the unit of persistence. -/
structure SurveyRecord where
  id : String
  topic : String
  createdAt : String
  answers : List StoredAnswer
  summary : Option StoredSummary
  chat : List ChatTurn
deriving DecidableEq, Repr

/-- The persisted document `\x7b surveys: \x7b [id]: SurveyRecord \x7d \x7d`,
as an association list: JavaScript objects keep one entry per key in insertion
order. -/
abbrev Store : Type := List (String × SurveyRecord)

/-- `store.surveys[surveyId]` — first (only) entry with the given key. -/
def findRecord : Store → String → Option SurveyRecord
  | [], _ => none
  | (k, r) :: rest, id => if k = id then some r else findRecord rest id

/-- Apply `f` to the record stored under `id` (JavaScript mutates the looked-up
object in place; keys are unique, so rewriting every matching entry is the
same). -/
def updateRecord : Store → String → (SurveyRecord → SurveyRecord) → Store
  | [], _, _ => []
  | (k, r) :: rest, id, f =>
    if k = id then (k, f r) :: updateRecord rest id f
    else (k, r) :: updateRecord rest id f

/-- `store.surveys[id] = record`: replace in place when the key exists,
otherwise add a new entry. -/
def setRecord (store : Store) (id : String) (r : SurveyRecord) : Store :=
  if (findRecord store id).isSome then updateRecord store id (fun _ => r)
  else store ++ [(id, r)]

/-- The error a store operation throws on an unknown id
(`Survey ... not found`). -/
inductive StoreError where
  | notFound : String → StoreError
deriving DecidableEq, Repr

/-- The backing file after a store call: `Except.ok` carries the document
`saveStore` wrote; a thrown error happens before `saveStore`, leaving the file
as it was. -/
def fileAfter (old : Store) : Except StoreError Store → Store
  | .ok s => s
  | .error _ => old

/-- `createSurvey(topic)`. The generated `crypto.randomUUID()` and the
`new Date().toISOString()` stamp are explicit arguments, making the
nondeterminism of the source visible. Returns the new record and the document
`saveStore` persists. -/
def createSurvey (freshId ts topic : String) (store : Store) : SurveyRecord × Store :=
  let record : SurveyRecord :=
    { id := freshId, topic := topic, createdAt := ts
      answers := [], summary := none, chat := [] }
  (record, setRecord store freshId record)

/-- `appendAnswers(surveyId, answers)`: throw NotFound when the id is unknown,
otherwise push the new pairs onto the record's `answers` and persist. -/
def appendAnswers (surveyId : String) (answers : List StoredAnswer) (store : Store) :
    Except StoreError Store :=
  match findRecord store surveyId with
  | none => .error (.notFound surveyId)
  | some _ => .ok (updateRecord store surveyId
      (fun r => { r with answers := r.answers ++ answers }))

/-- `saveSummary(surveyId, summary)`: throw NotFound when the id is unknown,
otherwise replace the record's `summary` wholesale and persist. -/
def saveSummary (surveyId : String) (summary : StoredSummary) (store : Store) :
    Except StoreError Store :=
  match findRecord store surveyId with
  | none => .error (.notFound surveyId)
  | some _ => .ok (updateRecord store surveyId
      (fun r => { r with summary := some summary }))

/-- `appendChatTurns(surveyId, turns)`: throw NotFound when the id is unknown,
otherwise push the turns onto the record's `chat` and persist. -/
def appendChatTurns (surveyId : String) (turns : List ChatTurn) (store : Store) :
    Except StoreError Store :=
  match findRecord store surveyId with
  | none => .error (.notFound surveyId)
  | some _ => .ok (updateRecord store surveyId
      (fun r => { r with chat := r.chat ++ turns }))

/-- `getSurvey(surveyId)`: `store.surveys[surveyId] ?? null`. The second
component is the backing file after the call — the source only calls
`loadStore`, never `saveStore`, so it is the input document. -/
def getSurvey (surveyId : String) (store : Store) : Option SurveyRecord × Store :=
  (findRecord store surveyId, store)

/-- Modelled from the spec: `setAnswers`, which both handlers in
`src/actions/survay.ts` import from the store module, is absent from
`src/store/surveyStore.ts`. Per §3 Ownership the session's cumulative answer
copy "is reconciled into the store at well-defined checkpoints", i.e. the
record's `answers` is replaced by the cumulative list the client sent; per the
§3 Invariants, operations on an unknown id fail (NotFound), matching every
other mutator of the store. -/
def setAnswers (surveyId : String) (answers : List StoredAnswer) (store : Store) :
    Except StoreError Store :=
  match findRecord store surveyId with
  | none => .error (.notFound surveyId)
  | some _ => .ok (updateRecord store surveyId
      (fun r => { r with answers := answers }))

/-! ## Loading the backing file (`loadStore`)

`loadStore` reads `data/surveys.json`; a missing file or a `JSON.parse` throw
yields the empty store. On success the TS performs an unchecked cast
(`as Store`); the decoders below read the parsed document at the declared
interface types, defaulting exactly where JavaScript property access would
yield `undefined`. -/

/-- Field access defaulting absent fields to `null` (both are falsy and both
are absence at the `Option` types below). -/
def jgetD (j : Json) (k : String) : Json :=
  (jget j k).getD .null

/-- Read a value at type `string`; non-strings default (the TS carries them
through untyped — no claim depends on that corner). -/
def jStrD : Json → String
  | .str s => s
  | _ => ""

/-- Read a value at type `string | null | undefined`. -/
def jStrOpt : Json → Option String
  | .str s => some s
  | _ => none

/-- Read a value at type `string[]`. -/
def jStrList : Json → List String
  | .arr xs => xs.map jStrD
  | _ => []

/-- Read a `'boolean' | 'scale'` tag. -/
def decodeQType : Json → QType
  | .str s => if s = "scale" then .scale else .boolean
  | _ => .boolean

/-- Read a `'user' | 'assistant'` tag. -/
def decodeRole : Json → Role
  | .str s => if s = "assistant" then .assistant else .user
  | _ => .user

/-- Read a `StoredQuestion`. -/
def decodeQuestion (j : Json) : StoredQuestion :=
  { id := jStrD (jgetD j "id"), type := decodeQType (jgetD j "type")
    label := jStrD (jgetD j "label")
    minLabel := jStrOpt (jgetD j "minLabel"), maxLabel := jStrOpt (jgetD j "maxLabel") }

/-- Read a `StoredAnswer`. -/
def decodeAnswer (j : Json) : StoredAnswer :=
  { question := decodeQuestion (jgetD j "question"), answer := jStrD (jgetD j "answer") }

/-- Read a `StoredAnswer[]`. -/
def decodeAnswers : Json → List StoredAnswer
  | .arr xs => xs.map decodeAnswer
  | _ => []

/-- Read a `StoredSummary`. -/
def decodeSummaryTriple (j : Json) : StoredSummary :=
  { summary := jStrD (jgetD j "summary"), insights := jStrList (jgetD j "insights")
    recommendations := jStrList (jgetD j "recommendations") }

/-- Read a `StoredSummary | null` field. -/
def decodeSummaryOpt : Json → Option StoredSummary
  | .null => none
  | j => some (decodeSummaryTriple j)

/-- Read a `ChatTurn`. -/
def decodeChatTurn (j : Json) : ChatTurn :=
  { role := decodeRole (jgetD j "role"), content := jStrD (jgetD j "content")
    ts := jStrD (jgetD j "ts") }

/-- Read a `ChatTurn[]`. -/
def decodeChat : Json → List ChatTurn
  | .arr xs => xs.map decodeChatTurn
  | _ => []

/-- Read a `SurveyRecord`. -/
def decodeRecord (j : Json) : SurveyRecord :=
  { id := jStrD (jgetD j "id"), topic := jStrD (jgetD j "topic")
    createdAt := jStrD (jgetD j "createdAt")
    answers := decodeAnswers (jgetD j "answers")
    summary := decodeSummaryOpt (jgetD j "summary")
    chat := decodeChat (jgetD j "chat") }

/-- Read the whole persisted document at the `Store` shape. -/
def decodeStore (j : Json) : Store :=
  match jget j "surveys" with
  | some (.obj fields) => fields.map (fun p => (p.1, decodeRecord p.2))
  | _ => []

/-- The document for the empty store, `\x7b surveys: \x7b\x7d \x7d`. -/
def emptyStoreDoc : Json := .obj [("surveys", .obj [])]

/-- `loadStore()`: the backing file's content (`none` when the file does not
exist). A missing file returns the empty store; `JSON.parse` is wrapped in
`try/catch`, so unparseable content also returns the empty store; otherwise the
parsed document is returned as-is. -/
def loadStore : Option String → Json
  | none => emptyStoreDoc
  | some s => (jsonParse s).getD emptyStoreDoc

/-! ## The HTTP handlers (`src/actions/survay.ts`) -/

/-- What `POST /survay` resolves with. The handler performs no validation of
the model output; `questions` is the raw `json.questions ?? []` value. -/
structure SurvayOut where
  surveyId : String
  questions : Json

/-- What `POST /submit-survay` resolves with: `surveyId` plus the spread of
`summaryData` (`json.summary ?? ''`, `json.insights ?? []`,
`json.recommendations ?? []`), again unvalidated. -/
structure SubmitOut where
  surveyId : String
  summary : Json
  insights : Json
  recommendations : Json

/-- An error escaping a handler: a store throw (NotFound), a `JSON.parse`
SyntaxError on the model output, or the TypeError thrown by reading a property
of the parsed document when that document is JSON `null`. -/
inductive HandlerError where
  | store : StoreError → HandlerError
  | jsonSyntax : HandlerError
  | typeError : HandlerError
deriving DecidableEq, Repr

/-- `result.message.content || '\x7b\x7d'`: the empty string is the only falsy
string, so an empty model output is replaced by the literal two-character
object text before parsing. -/
def jsOrEmptyObj (content : String) : String :=
  if content = "" then "\x7b\x7d" else content

/-- Lines 56-60 of `survay.ts`: JavaScript `if (!surveyId)` is a falsy test,
so `undefined`, `null` and `""` all create a new survey; otherwise the given
id is used against the store as-is. Returns the resolved id and the document
after the step. -/
def resolveSurveyId (surveyIdOpt : Option String) (freshId ts topic : String)
    (store : Store) : String × Store :=
  let created := createSurvey freshId ts topic store
  match surveyIdOpt with
  | none => (created.1.id, created.2)
  | some s => if s = "" then (created.1.id, created.2) else (s, store)

/-- `SurvayAction.handler`. Arguments: request body (`topic`, optional
`surveyId`, cumulative `answers`), the fresh id and timestamp a created record
would get, the model output text, and the persisted document. The `setAnswers`
call (line 64) is not wrapped in `try/catch`; neither is the `JSON.parse` of
the model output (line 112), nor the `json.questions` access (line 114), which
throws TypeError when the parsed document is `null`. -/
def survayHandler (topic : String) (surveyIdOpt : Option String)
    (answers : List StoredAnswer) (freshId ts content : String) (store : Store) :
    Except HandlerError (SurvayOut × Store) :=
  let rs := resolveSurveyId surveyIdOpt freshId ts topic store
  match (if answers.isEmpty then Except.ok rs.2 else setAnswers rs.1 answers rs.2) with
  | .error e => .error (.store e)
  | .ok store2 =>
    match jsonParse (jsOrEmptyObj content) with
    | none => .error .jsonSyntax
    | some j =>
      match jaccess j "questions" with
      | .error _ => .error .typeError
      | .ok v => .ok ({ surveyId := rs.1, questions := nullishOr v (.arr []) }, store2)

/-- `SubmitSurvayAction.handler`. Both persistence calls are wrapped in
`try/catch` (lines 148-153 and 190-194): a throw is logged and swallowed,
leaving the file as it was (`fileAfter`). The `JSON.parse` of the model output
(line 181) is not wrapped, and neither is building `summaryData` (lines
183-187): the accesses `json.summary`, `json.insights`,
`json.recommendations`, in that order, throw TypeError when the parsed
document is `null`. The summary passed to `saveSummary` is the same
`summaryData`, read at the store's declared `StoredSummary` type. -/
def submitSurvayHandler (surveyId : String) (answers : List StoredAnswer)
    (content : String) (store : Store) : Except HandlerError (SubmitOut × Store) :=
  let store1 :=
    if answers.isEmpty then store
    else fileAfter store (setAnswers surveyId answers store)
  match jsonParse (jsOrEmptyObj content) with
  | none => .error .jsonSyntax
  | some j =>
    match jaccess j "summary" with
    | .error _ => .error .typeError
    | .ok sv =>
      match jaccess j "insights" with
      | .error _ => .error .typeError
      | .ok iv =>
        match jaccess j "recommendations" with
        | .error _ => .error .typeError
        | .ok rv =>
          let sJson := nullishOr sv (.str "")
          let iJson := nullishOr iv (.arr [])
          let rJson := nullishOr rv (.arr [])
          let store2 := fileAfter store1
            (saveSummary surveyId
              { summary := jStrD sJson, insights := jStrList iJson
                recommendations := jStrList rJson } store1)
          .ok ({ surveyId := surveyId, summary := sJson, insights := iJson
                 recommendations := rJson }, store2)

/-! ## The client's deep-link resume (`src/cleint/index.ts`, lines 772-817) -/

/-- One entry of the client's `chatHistory`: a stored turn without its
timestamp (line 781 maps `(t) => (\x7b role, content \x7d)`). -/
structure ChatHistoryItem where
  role : Role
  content : String
deriving DecidableEq, Repr

/-- The client session state `resumeSurvey` repopulates (lines 778-781). -/
structure ClientSession where
  currentSurveyId : String
  selectedTopic : String
  allAnswers : List StoredAnswer
  chatHistory : List ChatHistoryItem
deriving DecidableEq, Repr

/-- Where `resumeSurvey` lands after repopulating the session:
`showScreen('results')` (the summarized state), `showScreen('decision')`
(round-complete), or `startNewRound(true)` (round generation restarted). -/
inductive ResumeTarget where
  | resultsScreen : ResumeTarget
  | decisionScreen : ResumeTarget
  | newRound : ResumeTarget
deriving DecidableEq, Repr

/-- `resumeSurvey` on a fetched record: populate the session from the record,
then branch on `record.summary` (truthy: render it and show `results`) and
otherwise on `allAnswers.length > 0` (`decision`) else `startNewRound(true)`.
The fetch-failure catch (lines 812-816) falls back to the history screen and
is outside this success-path model. -/
def resumeSurvey (record : SurveyRecord) : ClientSession × ResumeTarget :=
  let session : ClientSession :=
    { currentSurveyId := record.id, selectedTopic := record.topic
      allAnswers := record.answers
      chatHistory := record.chat.map (fun t => { role := t.role, content := t.content }) }
  match record.summary with
  | some _ => (session, .resultsScreen)
  | none =>
    if record.answers.isEmpty then (session, .newRound)
    else (session, .decisionScreen)

/-- A finite sequence of `appendAnswers` calls on the same id, each batch in
call order; the first throw aborts the sequence (callers of the store receive
the exception). -/
def appendRounds (id : String) (batches : List (List StoredAnswer)) (store : Store) :
    Except StoreError Store :=
  match batches with
  | [] => .ok store
  | b :: rest =>
    match appendAnswers id b store with
    | .error e => .error e
    | .ok s => appendRounds id rest s

/-! ## Store lemmas -/

theorem find_update_self (s : Store) (id : String) (f : SurveyRecord → SurveyRecord) :
    findRecord (updateRecord s id f) id = (findRecord s id).map f := by
  induction s with
  | nil => rfl
  | cons hd tl ih =>
    obtain ⟨k, rec⟩ := hd
    by_cases hk : k = id
    · simp [updateRecord, findRecord, hk]
    · simp [updateRecord, findRecord, hk, ih]

theorem find_update_other (s : Store) (id j : String) (f : SurveyRecord → SurveyRecord)
    (h : j ≠ id) : findRecord (updateRecord s id f) j = findRecord s j := by
  induction s with
  | nil => rfl
  | cons hd tl ih =>
    obtain ⟨k, rec⟩ := hd
    by_cases hk : k = id
    · subst hk
      simp [updateRecord, findRecord, Ne.symm h, ih]
    · by_cases hj : k = j
      · simp [updateRecord, findRecord, hk, hj, h]
      · simp [updateRecord, findRecord, hk, hj, ih]

theorem find_append_some (s t : Store) (id : String) (r : SurveyRecord)
    (h : findRecord s id = some r) : findRecord (s ++ t) id = some r := by
  induction s with
  | nil => simp [findRecord] at h
  | cons hd tl ih =>
    obtain ⟨k, rec⟩ := hd
    by_cases hk : k = id
    · simp [findRecord, hk] at h ⊢
      exact h
    · simp [findRecord, hk] at h ⊢
      exact ih h

theorem find_append_none (s t : Store) (id : String)
    (h : findRecord s id = none) : findRecord (s ++ t) id = findRecord t id := by
  induction s with
  | nil => rfl
  | cons hd tl ih =>
    obtain ⟨k, rec⟩ := hd
    by_cases hk : k = id
    · simp [findRecord, hk] at h
    · simp [findRecord, hk] at h ⊢
      exact ih h

theorem find_set_self (s : Store) (id : String) (r : SurveyRecord) :
    findRecord (setRecord s id r) id = some r := by
  unfold setRecord
  by_cases h : (findRecord s id).isSome
  · rw [if_pos h, find_update_self]
    obtain ⟨r0, hr⟩ := Option.isSome_iff_exists.mp h
    simp [hr]
  · rw [if_neg h]
    rw [find_append_none _ _ _ (Option.not_isSome_iff_eq_none.mp h)]
    simp [findRecord]

theorem find_set_other (s : Store) (id j : String) (r : SurveyRecord) (h : j ≠ id) :
    findRecord (setRecord s id r) j = findRecord s j := by
  unfold setRecord
  by_cases hs : (findRecord s id).isSome
  · rw [if_pos hs, find_update_other _ _ _ _ h]
  · rw [if_neg hs]
    cases hfj : findRecord s j with
    | some r0 => rw [find_append_some _ _ _ _ hfj]
    | none =>
      rw [find_append_none _ _ _ hfj]
      simp [findRecord, Ne.symm h]

theorem appendAnswers_ok (store : Store) (id : String) (r : SurveyRecord)
    (ans : List StoredAnswer) (h : findRecord store id = some r) :
    appendAnswers id ans store
      = .ok (updateRecord store id (fun rec => { rec with answers := rec.answers ++ ans })) := by
  simp [appendAnswers, h]

theorem saveSummary_ok (store : Store) (id : String) (r : SurveyRecord)
    (summ : StoredSummary) (h : findRecord store id = some r) :
    saveSummary id summ store
      = .ok (updateRecord store id (fun rec => { rec with summary := some summ })) := by
  simp [saveSummary, h]

theorem appendChatTurns_ok (store : Store) (id : String) (r : SurveyRecord)
    (turns : List ChatTurn) (h : findRecord store id = some r) :
    appendChatTurns id turns store
      = .ok (updateRecord store id (fun rec => { rec with chat := rec.chat ++ turns })) := by
  simp [appendChatTurns, h]

/-! ## Claim theorems -/

/-- C2: for every store state and every id not present in the store,
`appendAnswers`, `saveSummary` and `appendChatTurns` all fail with the NotFound
error, and the persisted store is exactly unchanged — the throw happens before
any `saveStore`, so no write is performed. -/
theorem unknown_id_mutations_fail_notFound (store : Store) (id : String)
    (ans : List StoredAnswer) (summ : StoredSummary) (turns : List ChatTurn)
    (h : findRecord store id = none) :
    appendAnswers id ans store = .error (.notFound id)
    ∧ saveSummary id summ store = .error (.notFound id)
    ∧ appendChatTurns id turns store = .error (.notFound id)
    ∧ fileAfter store (appendAnswers id ans store) = store
    ∧ fileAfter store (saveSummary id summ store) = store
    ∧ fileAfter store (appendChatTurns id turns store) = store := by
  refine ⟨?_, ?_, ?_, ?_, ?_, ?_⟩ <;>
    simp [appendAnswers, saveSummary, appendChatTurns, fileAfter, h]

/-- C2 witness: a concrete unknown id on the empty store. -/
theorem unknown_id_mutations_fail_notFound_witness :
    appendAnswers "missing" [] ([] : Store) = .error (.notFound "missing")
    ∧ fileAfter [] (saveSummary "missing" ⟨"", [], []⟩ ([] : Store)) = [] := by
  have h := unknown_id_mutations_fail_notFound [] "missing" []
    ⟨"", [], []⟩ [] rfl
  exact ⟨h.1, h.2.2.2.2.1⟩

/-- C9: `getSurvey` is a total, non-failing lookup: on any id, even one never
created, it returns the stored record when present and `none` otherwise, and
the backing file after the call is the input document (no write). -/
theorem getSurvey_total_lookup_no_write (id : String) (store : Store) :
    (getSurvey id store).2 = store
    ∧ (∀ r, findRecord store id = some r → (getSurvey id store).1 = some r)
    ∧ (findRecord store id = none → (getSurvey id store).1 = none) :=
  ⟨rfl, fun r h => by simp [getSurvey, h], fun h => by simp [getSurvey, h]⟩

/-- C9 witness: a never-created id on the empty store. -/
theorem getSurvey_total_lookup_no_write_witness :
    (getSurvey "never-created" ([] : Store)).1 = none
    ∧ (getSurvey "never-created" ([] : Store)).2 = [] := by
  have h := getSurvey_total_lookup_no_write "never-created" []
  exact ⟨h.2.2 rfl, h.1⟩

/-- C5: calling `saveSummary` twice on a present id stores exactly the second
summary — wholesale replacement, no merge of any field — and the stored value
is the complete triple of summary text, insights and recommendations. -/
theorem saveSummary_twice_last_wins (store : Store) (id : String) (r : SurveyRecord)
    (s1 s2 : StoredSummary) (h : findRecord store id = some r) :
    ∃ st1 st2, saveSummary id s1 store = .ok st1
      ∧ saveSummary id s2 st1 = .ok st2
      ∧ findRecord st2 id = some { r with summary := some s2 }
      ∧ some s2 = some { summary := s2.summary, insights := s2.insights
                         recommendations := s2.recommendations } := by
  have hfind1 : findRecord (updateRecord store id (fun rec => { rec with summary := some s1 })) id
      = some { r with summary := some s1 } := by
    rw [find_update_self, h]
    rfl
  refine ⟨_, _, saveSummary_ok store id r s1 h, saveSummary_ok _ id _ s2 hfind1, ?_, rfl⟩
  rw [find_update_self, find_update_self, h]
  rfl

/-- C5 witness: two concrete summaries on a one-record store. -/
theorem saveSummary_twice_last_wins_witness :
    ∃ st1 st2,
      saveSummary "s1" ⟨"first", ["i1"], []⟩
        [("s1", { id := "s1", topic := "sleep", createdAt := "t0"
                  answers := [], summary := none, chat := [] })] = .ok st1
      ∧ saveSummary "s1" ⟨"second", [], ["r1"]⟩ st1 = .ok st2
      ∧ findRecord st2 "s1" = some { id := "s1", topic := "sleep", createdAt := "t0"
                                     answers := [], summary := some ⟨"second", [], ["r1"]⟩
                                     chat := [] } := by
  obtain ⟨st1, st2, h1, h2, h3, -⟩ := saveSummary_twice_last_wins
    [("s1", { id := "s1", topic := "sleep", createdAt := "t0"
              answers := [], summary := none, chat := [] })]
    "s1" _ ⟨"first", ["i1"], []⟩ ⟨"second", [], ["r1"]⟩ rfl
  exact ⟨st1, st2, h1, h2, h3⟩

/-- C4: round-trip — `create(topic)` then `appendAnswers` of the two pairs
`(q1,"yes"), (q2,"7")` then `get` by the returned record's id yields a record
with exactly those answers in order, the given topic, no summary and an empty
chat. -/
theorem create_append_get_roundtrip (store : Store) (freshId ts topic : String)
    (q1 q2 : StoredQuestion) :
    ∃ s2, appendAnswers (createSurvey freshId ts topic store).1.id
        [⟨q1, "yes"⟩, ⟨q2, "7"⟩] (createSurvey freshId ts topic store).2 = .ok s2
      ∧ (getSurvey (createSurvey freshId ts topic store).1.id s2).1
          = some { id := freshId, topic := topic, createdAt := ts
                   answers := [⟨q1, "yes"⟩, ⟨q2, "7"⟩], summary := none, chat := [] } := by
  have hfind : findRecord (createSurvey freshId ts topic store).2 freshId
      = some { id := freshId, topic := topic, createdAt := ts
               answers := [], summary := none, chat := [] } :=
    find_set_self store freshId _
  refine ⟨_, appendAnswers_ok _ _ _ _ hfind, ?_⟩
  have hupd := find_update_self (createSurvey freshId ts topic store).2 freshId
    (fun rec => { rec with answers := rec.answers ++ [⟨q1, "yes"⟩, ⟨q2, "7"⟩] })
  rw [hfind] at hupd
  exact hupd

/-- C3: for a present id, any finite sequence of `appendAnswers` batches
succeeds and leaves the record's `answers` equal to the original answers
followed by the concatenation of the batches in call order; in particular its
length is the original length plus the sum of the batch lengths. -/
theorem appendAnswers_batches_concat (store : Store) (id : String) (r : SurveyRecord)
    (batches : List (List StoredAnswer)) (h : findRecord store id = some r) :
    ∃ s' rec, appendRounds id batches store = .ok s'
      ∧ findRecord s' id = some rec
      ∧ rec.answers = r.answers ++ batches.flatten
      ∧ rec.answers.length = r.answers.length + (batches.map List.length).sum := by
  induction batches generalizing store r with
  | nil =>
    exact ⟨store, r, rfl, h, by simp, by simp⟩
  | cons b rest ih =>
    have hstep := appendAnswers_ok store id r b h
    have hfind : findRecord (updateRecord store id
        (fun rec => { rec with answers := rec.answers ++ b })) id
        = some { r with answers := r.answers ++ b } := by
      rw [find_update_self, h]
      rfl
    obtain ⟨s', rec, h1, h2, h3, h4⟩ := ih _ _ hfind
    refine ⟨s', rec, ?_, h2, ?_, ?_⟩
    · simp only [appendRounds, hstep]
      exact h1
    · simp only [h3, List.flatten_cons, List.append_assoc]
    · simp only [h4, List.length_append, List.map_cons, List.sum_cons]
      omega

/-- C3 witness: two batches of sizes 1 and 2 on a record that already holds
one answer. -/
theorem appendAnswers_batches_concat_witness :
    ∃ s' rec,
      appendRounds "s1"
        [[⟨⟨"q2", .scale, "B", none, none⟩, "5"⟩],
         [⟨⟨"q3", .boolean, "C", none, none⟩, "no"⟩, ⟨⟨"q4", .scale, "D", none, none⟩, "9"⟩]]
        [("s1", { id := "s1", topic := "sleep", createdAt := "t0"
                  answers := [⟨⟨"q1", .boolean, "A", none, none⟩, "yes"⟩]
                  summary := none, chat := [] })] = .ok s'
      ∧ findRecord s' "s1" = some rec
      ∧ rec.answers
          = [⟨⟨"q1", .boolean, "A", none, none⟩, "yes"⟩,
             ⟨⟨"q2", .scale, "B", none, none⟩, "5"⟩,
             ⟨⟨"q3", .boolean, "C", none, none⟩, "no"⟩,
             ⟨⟨"q4", .scale, "D", none, none⟩, "9"⟩]
      ∧ rec.answers.length = 1 + (1 + 2) := by
  obtain ⟨s', rec, h1, h2, h3, h4⟩ := appendAnswers_batches_concat
    [("s1", { id := "s1", topic := "sleep", createdAt := "t0"
              answers := [⟨⟨"q1", .boolean, "A", none, none⟩, "yes"⟩]
              summary := none, chat := [] })]
    "s1" _
    [[⟨⟨"q2", .scale, "B", none, none⟩, "5"⟩],
     [⟨⟨"q3", .boolean, "C", none, none⟩, "no"⟩, ⟨⟨"q4", .scale, "D", none, none⟩, "9"⟩]]
    rfl
  refine ⟨s', rec, h1, h2, ?_, ?_⟩
  · rw [h3]
    rfl
  · rw [h4]
    rfl

/-- C10 (frame): each successful store mutation on a present id changes only
its own field of its own record — `appendAnswers` appends to `answers`,
`saveSummary` replaces `summary`, `appendChatTurns` appends to `chat`, each
leaving the record's `id`, `topic`, `createdAt` and all remaining fields as the
record-update expression shows, and every other key of the store maps to
exactly the record it mapped to before. -/
theorem mutations_frame_own_field_only (store : Store) (id : String) (r : SurveyRecord)
    (ans : List StoredAnswer) (summ : StoredSummary) (turns : List ChatTurn)
    (h : findRecord store id = some r) :
    (∃ s', appendAnswers id ans store = .ok s'
      ∧ findRecord s' id = some { r with answers := r.answers ++ ans }
      ∧ ∀ j, j ≠ id → findRecord s' j = findRecord store j)
    ∧ (∃ s', saveSummary id summ store = .ok s'
      ∧ findRecord s' id = some { r with summary := some summ }
      ∧ ∀ j, j ≠ id → findRecord s' j = findRecord store j)
    ∧ (∃ s', appendChatTurns id turns store = .ok s'
      ∧ findRecord s' id = some { r with chat := r.chat ++ turns }
      ∧ ∀ j, j ≠ id → findRecord s' j = findRecord store j) := by
  refine ⟨⟨_, appendAnswers_ok store id r ans h, ?_, ?_⟩,
          ⟨_, saveSummary_ok store id r summ h, ?_, ?_⟩,
          ⟨_, appendChatTurns_ok store id r turns h, ?_, ?_⟩⟩
  · rw [find_update_self, h]
    rfl
  · intro j hj
    exact find_update_other store id j _ hj
  · rw [find_update_self, h]
    rfl
  · intro j hj
    exact find_update_other store id j _ hj
  · rw [find_update_self, h]
    rfl
  · intro j hj
    exact find_update_other store id j _ hj

/-- C10 witness: a two-record store; mutating `s1` leaves `s2` untouched. -/
theorem mutations_frame_own_field_only_witness :
    ∃ s', saveSummary "s1" ⟨"done", [], []⟩
        [("s1", { id := "s1", topic := "sleep", createdAt := "t0"
                  answers := [], summary := none, chat := [] }),
         ("s2", { id := "s2", topic := "diet", createdAt := "t1"
                  answers := [], summary := none, chat := [] })] = .ok s'
      ∧ findRecord s' "s1" = some { id := "s1", topic := "sleep", createdAt := "t0"
                                    answers := [], summary := some ⟨"done", [], []⟩
                                    chat := [] }
      ∧ findRecord s' "s2" = some { id := "s2", topic := "diet", createdAt := "t1"
                                    answers := [], summary := none, chat := [] } := by
  obtain ⟨-, ⟨s', h1, h2, h3⟩, -⟩ := mutations_frame_own_field_only
    [("s1", { id := "s1", topic := "sleep", createdAt := "t0"
              answers := [], summary := none, chat := [] }),
     ("s2", { id := "s2", topic := "diet", createdAt := "t1"
              answers := [], summary := none, chat := [] })]
    "s1" _ [] ⟨"done", [], []⟩ [] rfl
  refine ⟨s', h1, h2, ?_⟩
  rw [h3 "s2" (by decide)]
  rfl

/-- C6: resuming from a stored record repopulates the client session from the
record and jumps by the rule: a present summary goes straight to the results
screen (the summarized state) without any question round; answers but no
summary goes to the decision screen (round-complete); neither restarts round
generation (`startNewRound(true)`). -/
theorem resumeSurvey_state_reconstruction (record : SurveyRecord) :
    (resumeSurvey record).1
      = { currentSurveyId := record.id, selectedTopic := record.topic
          allAnswers := record.answers
          chatHistory := record.chat.map (fun t => { role := t.role, content := t.content }) }
    ∧ (record.summary.isSome → (resumeSurvey record).2 = .resultsScreen)
    ∧ (record.summary = none → record.answers ≠ [] → (resumeSurvey record).2 = .decisionScreen)
    ∧ (record.summary = none → record.answers = [] → (resumeSurvey record).2 = .newRound) := by
  refine ⟨?_, ?_, ?_, ?_⟩
  · cases hs : record.summary with
    | some s => simp [resumeSurvey, hs]
    | none =>
      by_cases ha : record.answers.isEmpty <;> simp [resumeSurvey, hs, ha]
  · intro h
    obtain ⟨s, hs⟩ := Option.isSome_iff_exists.mp h
    simp [resumeSurvey, hs]
  · intro hs ha
    have ha' : record.answers.isEmpty = false := by
      cases hl : record.answers with
      | nil => exact absurd hl ha
      | cons x xs => rfl
    simp [resumeSurvey, hs, ha']
  · intro hs ha
    simp [resumeSurvey, hs, ha]

/-- C6 witness: a record with a populated summary resumes straight to the
results screen with the session repopulated. -/
theorem resumeSurvey_state_reconstruction_witness :
    (resumeSurvey { id := "s1", topic := "sleep", createdAt := "t0"
                    answers := [⟨⟨"q1", .boolean, "A", none, none⟩, "yes"⟩]
                    summary := some ⟨"fine", ["i"], ["r"]⟩
                    chat := [⟨.user, "hi", "t1"⟩] }).2 = .resultsScreen
    ∧ (resumeSurvey { id := "s1", topic := "sleep", createdAt := "t0"
                      answers := [⟨⟨"q1", .boolean, "A", none, none⟩, "yes"⟩]
                      summary := some ⟨"fine", ["i"], ["r"]⟩
                      chat := [⟨.user, "hi", "t1"⟩] }).1
        = { currentSurveyId := "s1", selectedTopic := "sleep"
            allAnswers := [⟨⟨"q1", .boolean, "A", none, none⟩, "yes"⟩]
            chatHistory := [⟨.user, "hi"⟩] } := by
  have h := resumeSurvey_state_reconstruction
    { id := "s1", topic := "sleep", createdAt := "t0"
      answers := [⟨⟨"q1", .boolean, "A", none, none⟩, "yes"⟩]
      summary := some ⟨"fine", ["i"], ["r"]⟩
      chat := [⟨.user, "hi", "t1"⟩] }
  exact ⟨h.2.1 rfl, h.1⟩

/-- C8: loading is total and fails open — a missing backing file or one whose
content `JSON.parse` rejects loads as the empty store document, so every store
operation behaves exactly as on the empty store: lookups miss and every
keyed mutation fails NotFound. -/
theorem loadStore_fails_open_empty (file : Option String) (anyId : String)
    (ans : List StoredAnswer) (summ : StoredSummary) (turns : List ChatTurn)
    (h : file = none ∨ ∃ s, file = some s ∧ jsonParse s = none) :
    loadStore file = emptyStoreDoc
    ∧ decodeStore (loadStore file) = []
    ∧ (getSurvey anyId (decodeStore (loadStore file))).1 = none
    ∧ appendAnswers anyId ans (decodeStore (loadStore file)) = .error (.notFound anyId)
    ∧ saveSummary anyId summ (decodeStore (loadStore file)) = .error (.notFound anyId)
    ∧ appendChatTurns anyId turns (decodeStore (loadStore file)) = .error (.notFound anyId) := by
  have h1 : loadStore file = emptyStoreDoc := by
    rcases h with h | ⟨s, hs, hp⟩
    · rw [h]
      rfl
    · rw [hs]
      simp [loadStore, hp]
  rw [h1]
  exact ⟨rfl, rfl, rfl, rfl, rfl, rfl⟩

/-- C8 witness: concrete unparseable content. -/
theorem loadStore_fails_open_empty_witness :
    loadStore (some "oops") = emptyStoreDoc
    ∧ appendAnswers "s1" [] (decodeStore (loadStore (some "oops")))
        = .error (.notFound "s1") := by
  have h := loadStore_fails_open_empty (some "oops") "s1" [] ⟨"", [], []⟩ []
    (Or.inr ⟨"oops", rfl, rfl⟩)
  exact ⟨h.1, h.2.2.2.1⟩

theorem jaccess_ne_null (j : Json) (k : String) (h : j ≠ .null) :
    jaccess j k = .ok (jget j k) := by
  cases j with
  | null => exact absurd rfl h
  | bool b => rfl
  | num s => rfl
  | str s => rfl
  | arr xs => rfl
  | obj fs => rfl

theorem exists_pair_of_map_fst {ε α β : Type} (x : Except ε (α × β)) (a : α)
    (h : x.map Prod.fst = .ok a) : ∃ b, x = .ok (a, b) := by
  cases x with
  | error e => exact Except.noConfusion h
  | ok p =>
    obtain ⟨a', b⟩ := p
    refine ⟨b, ?_⟩
    have : a' = a := Except.ok.inj h
    rw [this]

theorem error_of_map_fst {ε α β : Type} (x : Except ε (α × β)) (e : ε)
    (h : x.map Prod.fst = .error e) : x = .error e := by
  cases x with
  | error e' =>
    have : e' = e := Except.error.inj h
    rw [this]
  | ok p => exact Except.noConfusion h

/-- The resolved value of `POST /submit-survay` as a function of the model
output alone: the store only ever enters the dropped second component or the
swallowed persistence calls. -/
theorem submitHandler_value (sid content : String) (answers : List StoredAnswer)
    (store : Store) :
    (submitSurvayHandler sid answers content store).map Prod.fst
      = match jsonParse (jsOrEmptyObj content) with
        | none => .error .jsonSyntax
        | some j =>
          match jaccess j "summary", jaccess j "insights", jaccess j "recommendations" with
          | .ok sv, .ok iv, .ok rv =>
            .ok { surveyId := sid, summary := nullishOr sv (.str "")
                  insights := nullishOr iv (.arr [])
                  recommendations := nullishOr rv (.arr []) }
          | _, _, _ => .error .typeError := by
  unfold submitSurvayHandler
  cases hj : jsonParse (jsOrEmptyObj content) with
  | none => rfl
  | some j => cases j <;> rfl

/-- C7: the value `POST /submit-survay` resolves or throws with is the same
for every store state — persistence failures (both calls are in `try/catch`)
are never propagated and never change the returned value — and whenever the
model response parses to a non-null document, the handler resolves with the
summary built from it, including on stores where persisting the final answers
or the summary throws. -/
theorem submit_returns_summary_despite_persist_failure
    (sid : String) (answers : List StoredAnswer) (content : String)
    (store altStore : Store) :
    ((submitSurvayHandler sid answers content store).map Prod.fst
      = (submitSurvayHandler sid answers content altStore).map Prod.fst)
    ∧ (∀ j, jsonParse (jsOrEmptyObj content) = some j → j ≠ .null →
        ∃ st, submitSurvayHandler sid answers content store = .ok
          ({ surveyId := sid
             summary := nullishOr (jget j "summary") (.str "")
             insights := nullishOr (jget j "insights") (.arr [])
             recommendations := nullishOr (jget j "recommendations") (.arr []) }, st)) := by
  constructor
  · rw [submitHandler_value, submitHandler_value]
  · intro j hj hnull
    apply exists_pair_of_map_fst
    simp only [submitHandler_value, hj, jaccess_ne_null j _ hnull]

/-- C7 witness: the empty store — both persistence calls throw NotFound — yet
the handler resolves with the parsed summary. -/
theorem submit_returns_summary_despite_persist_failure_witness :
    (∃ st, submitSurvayHandler "s1" [⟨⟨"q1", .boolean, "A", none, none⟩, "yes"⟩]
        "\x7b\"summary\": \"All good\"\x7d" ([] : Store) = .ok
      ({ surveyId := "s1", summary := .str "All good", insights := .arr []
         recommendations := .arr [] }, st))
    ∧ setAnswers "s1" [⟨⟨"q1", .boolean, "A", none, none⟩, "yes"⟩] ([] : Store)
        = .error (.notFound "s1")
    ∧ saveSummary "s1" ⟨"All good", [], []⟩ ([] : Store) = .error (.notFound "s1") := by
  have h := submit_returns_summary_despite_persist_failure "s1"
    [⟨⟨"q1", .boolean, "A", none, none⟩, "yes"⟩]
    "\x7b\"summary\": \"All good\"\x7d" [] []
  obtain ⟨st, hst⟩ := h.2 (.obj [("summary", .str "All good")]) rfl
    (by intro hn; cases hn)
  exact ⟨⟨st, hst⟩, rfl, rfl⟩

/-- C1 counterexample: two model outputs refute "returns normally ... for
every possible model-output string". The non-empty non-JSON output
`"not json"` makes `JSON.parse` throw a SyntaxError in both handlers, and the
output `"null"` parses as JSON but makes the property access on the parsed
document (`json.questions`, `json.summary`) throw a TypeError — in both cases
the error propagates instead of being replaced by empty defaults. -/
theorem malformed_model_output_throws_cex :
    survayHandler "sleep" (some "s1") [] "f1" "t0" "not json" [] = .error .jsonSyntax
    ∧ submitSurvayHandler "s1" [] "not json" ([] : Store) = .error .jsonSyntax
    ∧ survayHandler "sleep" (some "s1") [] "f1" "t0" "null" [] = .error .typeError
    ∧ submitSurvayHandler "s1" [] "null" ([] : Store) = .error .typeError :=
  ⟨rfl, rfl, rfl, rfl⟩

theorem jsOrEmptyObj_of_ne (content : String) (h : content ≠ "") :
    jsOrEmptyObj content = content := if_neg h

/-- `POST /survay` on any call whose create-or-use step resolved `(sid,
store1)` and whose answer-persistence step succeeded with `store2`, as a
function of the model output. -/
theorem survayHandler_reaches_model
    (topic freshId ts content sid : String) (surveyIdOpt : Option String)
    (answers : List StoredAnswer) (store store1 store2 : Store)
    (hres : resolveSurveyId surveyIdOpt freshId ts topic store = (sid, store1))
    (hok : (if answers.isEmpty then Except.ok store1 else setAnswers sid answers store1)
      = Except.ok store2) :
    survayHandler topic surveyIdOpt answers freshId ts content store
      = match jsonParse (jsOrEmptyObj content) with
        | none => .error .jsonSyntax
        | some j =>
          match jaccess j "questions" with
          | .error _ => .error .typeError
          | .ok v => .ok ({ surveyId := sid, questions := nullishOr v (.arr []) }, store2) := by
  unfold survayHandler
  rw [hres]
  dsimp only
  rw [hok]

/-- C1 amended: for every call of either handler that reaches the model call
(for `POST /survay`: the create-or-use step resolved the id and the
answer-persistence step did not throw; `POST /submit-survay` reaches it on
every call) — an empty model output is replaced by the literal object text and
yields the empty defaults; an output parsing as any JSON value other than
`null` yields a normal return with absent or null fields defaulted; an output
parsing as JSON `null` makes the property access throw a TypeError that
propagates; and a non-empty output that `JSON.parse` rejects makes the
SyntaxError propagate. -/
theorem model_output_defaults_amended
    (topic freshId ts content sid : String) (surveyIdOpt : Option String)
    (answers : List StoredAnswer) (store store1 store2 : Store)
    (hres : resolveSurveyId surveyIdOpt freshId ts topic store = (sid, store1))
    (hok : (if answers.isEmpty then Except.ok store1 else setAnswers sid answers store1)
      = Except.ok store2) :
    (content = "" →
      survayHandler topic surveyIdOpt answers freshId ts content store
        = .ok ({ surveyId := sid, questions := .arr [] }, store2)
      ∧ (∀ sid2 sStore, ∃ st, submitSurvayHandler sid2 answers content sStore
          = .ok ({ surveyId := sid2, summary := .str "", insights := .arr []
                   recommendations := .arr [] }, st)))
    ∧ (∀ j, jsonParse content = some j → j ≠ .null →
      survayHandler topic surveyIdOpt answers freshId ts content store
        = .ok ({ surveyId := sid
                 questions := nullishOr (jget j "questions") (.arr []) }, store2)
      ∧ (∀ sid2 sStore, ∃ st, submitSurvayHandler sid2 answers content sStore
          = .ok ({ surveyId := sid2
                   summary := nullishOr (jget j "summary") (.str "")
                   insights := nullishOr (jget j "insights") (.arr [])
                   recommendations := nullishOr (jget j "recommendations") (.arr []) }, st)))
    ∧ (jsonParse content = some .null →
      survayHandler topic surveyIdOpt answers freshId ts content store = .error .typeError
      ∧ (∀ sid2 sStore, submitSurvayHandler sid2 answers content sStore
          = .error .typeError))
    ∧ (content ≠ "" → jsonParse content = none →
      survayHandler topic surveyIdOpt answers freshId ts content store = .error .jsonSyntax
      ∧ (∀ sid2 sStore, submitSurvayHandler sid2 answers content sStore
          = .error .jsonSyntax)) := by
  have hs := survayHandler_reaches_model topic freshId ts content sid surveyIdOpt
    answers store store1 store2 hres hok
  refine ⟨?_, ?_, ?_, ?_⟩
  · intro hc
    subst hc
    constructor
    · exact hs.trans rfl
    · intro sid2 sStore
      apply exists_pair_of_map_fst
      exact (submitHandler_value sid2 "" answers sStore).trans rfl
  · intro j hj hnull
    have hne : content ≠ "" := by
      intro hc
      rw [hc] at hj
      have h0 : jsonParse "" = none := rfl
      rw [h0] at hj
      cases hj
    constructor
    · simp only [hs, jsOrEmptyObj_of_ne content hne, hj, jaccess_ne_null j _ hnull]
    · intro sid2 sStore
      apply exists_pair_of_map_fst
      simp only [submitHandler_value, jsOrEmptyObj_of_ne content hne, hj,
        jaccess_ne_null j _ hnull]
  · intro hp
    have hne : content ≠ "" := by
      intro hc
      rw [hc] at hp
      have h0 : jsonParse "" = none := rfl
      rw [h0] at hp
      cases hp
    constructor
    · simp only [hs, jsOrEmptyObj_of_ne content hne, hp]
      rfl
    · intro sid2 sStore
      apply error_of_map_fst
      simp only [submitHandler_value, jsOrEmptyObj_of_ne content hne, hp]
      rfl
  · intro hne hp
    constructor
    · simp only [hs, jsOrEmptyObj_of_ne content hne, hp]
    · intro sid2 sStore
      apply error_of_map_fst
      simp only [submitHandler_value, jsOrEmptyObj_of_ne content hne, hp]

/-- C1 amended witness: a call with a known id and a non-empty answer batch
persists, then the empty model output yields the empty defaults from both
handlers. -/
theorem model_output_defaults_amended_witness :
    survayHandler "sleep" (some "s1")
        [⟨⟨"q1", .boolean, "A", none, none⟩, "yes"⟩] "f" "t0" ""
        [("s1", { id := "s1", topic := "sleep", createdAt := "t0"
                  answers := [], summary := none, chat := [] })]
      = .ok ({ surveyId := "s1", questions := .arr [] },
             [("s1", { id := "s1", topic := "sleep", createdAt := "t0"
                       answers := [⟨⟨"q1", .boolean, "A", none, none⟩, "yes"⟩]
                       summary := none, chat := [] })])
    ∧ (∃ st, submitSurvayHandler "s1"
        [⟨⟨"q1", .boolean, "A", none, none⟩, "yes"⟩] "" ([] : Store)
        = .ok ({ surveyId := "s1", summary := .str "", insights := .arr []
                 recommendations := .arr [] }, st)) := by
  have h := model_output_defaults_amended "sleep" "f" "t0" "" "s1" (some "s1")
    [⟨⟨"q1", .boolean, "A", none, none⟩, "yes"⟩]
    [("s1", { id := "s1", topic := "sleep", createdAt := "t0"
              answers := [], summary := none, chat := [] })]
    [("s1", { id := "s1", topic := "sleep", createdAt := "t0"
              answers := [], summary := none, chat := [] })]
    [("s1", { id := "s1", topic := "sleep", createdAt := "t0"
              answers := [⟨⟨"q1", .boolean, "A", none, none⟩, "yes"⟩]
              summary := none, chat := [] })]
    rfl rfl
  exact ⟨(h.1 rfl).1, (h.1 rfl).2 "s1" []⟩

end QA
